import Mathlib

/-!
Verification development for the `concarne` pattern library
(`concarne/patterns/base.py` and `concarne/patterns/pairwise.py`).

The Python code is a thin bookkeeping layer over a symbolic graph library
(lasagne/Theano): it composes sub-networks `phi`, `psi` and optional `beta`,
tags their parameters by role, lazily builds loss expressions, and combines
target and context losses with weights.  We embed it shallowly:

* Theano expressions become the inductive `Expr`; numeric meaning is given by
  `Expr.eval` under an interpretation of the opaque operators (variables,
  loss functions, layer forward passes, `.mean()`).
* Python `None` in a variable slot is `Option Expr`; Python `None` flowing
  into a graph-building call is the expression `Expr.pynone`.
* Python exceptions become `Except PyError`.
* The mutable per-parameter tag sets (`layer.params[p]`, a mapping keyed by
  parameter, per the library contract in the spec) become an explicit state
  `ParamTags` threaded through the tagging pass.
* The class hierarchy Pattern / PairwiseTransformationPattern /
  PairwisePredictTransformationPattern is flattened into one structure with a
  `cls` field; virtual methods dispatch on `cls`.
-/

namespace Concarne

/-- Symbolic Theano/lasagne expression, as built by the pattern layer.
`call f a b` is the application of an opaque loss function named `f` to two
sub-expressions; `layerOut l e` is `l.get_output_for(e)` for the (sub-network
whose output is the) layer named `l`; `mean e` is Theano `e.mean()`;
`smul c e` is multiplication by the Python float `c`; `pynone` is the Python
value `None` used as an operand of a graph-building call. -/
inductive Expr where
  | var (name : String)
  | pynone
  | call (fn : String) (a b : Expr)
  | mean (e : Expr)
  | sub (a b : Expr)
  | smul (c : ℚ) (e : Expr)
  | add (a b : Expr)
  | layerOut (layer : String) (input : Expr)
deriving DecidableEq, Repr

/-- Interpretation of the opaque operators of `Expr`: values of the symbolic
variables, the semantics of the named loss functions, of the layer forward
computations, of `.mean()`, and an (arbitrary) value for `None`. -/
structure Interp where
  var : String → ℚ
  call : String → ℚ → ℚ → ℚ
  layer : String → ℚ → ℚ
  mean : ℚ → ℚ
  noneVal : ℚ

/-- Numeric denotation of an expression under an interpretation.  The
operators the pattern layer itself introduces (weighting, summation,
elementwise difference) get their arithmetic meaning; everything opaque is
interpreted by `I`. -/
def Expr.eval (I : Interp) : Expr → ℚ
  | .var n => I.var n
  | .pynone => I.noneVal
  | .call f a b => I.call f (a.eval I) (b.eval I)
  | .mean e => I.mean (e.eval I)
  | .sub a b => a.eval I - b.eval I
  | .smul c e => c * e.eval I
  | .add a b => a.eval I + b.eval I
  | .layerOut l e => I.layer l (e.eval I)

/-- Python exceptions that the embedded code can raise. -/
inductive PyError where
  | assertionError
  | notImplementedError
  | typeError (msg : String)
deriving DecidableEq, Repr

/-- The `target_loss` / `context_loss` constructor arguments: either a ready
symbolic expression or a loss function (callable), cf. the docstring of
`Pattern` ("Theano expression or lasagne objective"). -/
inductive LossArg where
  | expr (e : Expr)
  | fn (f : String)
deriving DecidableEq, Repr

/-- Modelled from the spec: `self.context_shape` is read by
`default_beta_input` (pairwise.py line 118) but the code assigning it is not
among the two source files; per the spec it is "the context's dimensionality",
either a scalar dimension (a Python `int`) or a shape tuple. -/
inductive ShapeSpec where
  | scalar (d : Nat)
  | tuple (s : List (Option Nat))
deriving DecidableEq, Repr

/-- A lasagne `InputLayer`: a placeholder with a shape (entries `none` model
the Python `None` wildcard dimension) bound to a symbolic variable. -/
structure InputLayer where
  shape : List (Option Nat)
  input_var : Option Expr
deriving DecidableEq, Repr

/-- A sub-network (`phi`, `psi` or `beta`): an opaque composite graph object
of the external library.  `name` identifies its forward computation
(`get_output_for`), `input_layer` is its input layer, and `layers` is the
result of `lasagne.layers.get_all_layers` on it — each layer given by the
list of its own parameter ids (`l.get_params()`). -/
structure SubNet where
  name : String
  input_layer : InputLayer
  layers : List (List Nat)
deriving DecidableEq, Repr

/-- The mutable tagging state: per the spec's collaborator contract the
library exposes "a `params` tagging mechanism keyed by parameter →
set-of-tags".  We key by parameter id and keep the set as a duplicate-free
list. -/
def ParamTags : Type := Nat → List String

/-- The pattern classes of the two source files; methods dispatch on this
field, flattening the Python inheritance hierarchy. -/
inductive PatternClass where
  | base
  | pairwiseTransformation
  | pairwisePredictTransformation
deriving DecidableEq, Repr

/-- The state of a `Pattern` object (all classes flattened; fields that a
given class never sets keep their construction-time defaults). -/
structure Pattern where
  cls : PatternClass
  phi : SubNet
  psi : SubNet
  beta : Option SubNet
  input_layer : InputLayer
  input_var : Option Expr
  target_var : Option Expr
  context_var : Option Expr
  target_loss : Option Expr
  target_loss_fn : Option String
  context_loss : Option Expr
  context_loss_fn : Option String
  name : Option String
  context_transform_var : Option Expr
  context_input_layer : Option InputLayer
  context_shape : ShapeSpec
deriving DecidableEq, Repr

/-- Coercion of a possibly-`None` variable slot into an expression operand
(Python simply passes the value, `None` included, into the graph call). -/
def optExpr : Option Expr → Expr
  | some e => e
  | none => .pynone

/-- base.py lines 241-248, `Pattern.training_loss`: weights are Python
floats; `weight * None` raises, which the `Option` encodes. -/
def Pattern.training_loss (p : Pattern) (target_weight context_weight : ℚ) :
    Option Expr :=
  if target_weight = 0 then
    p.context_loss.map (fun cl => .smul context_weight cl)
  else if context_weight = 0 then
    p.target_loss.map (fun tl => .smul target_weight tl)
  else
    match p.target_loss, p.context_loss with
    | some tl, some cl =>
        some (.add (.smul target_weight tl) (.smul context_weight cl))
    | _, _ => none

/-- C1: with both losses set, `training_loss` returns
`context_weight*context_loss` when `target_weight == 0`, else
`target_weight*target_loss` when `context_weight == 0`, else the weighted
sum with no renormalization; numerically `training_loss(1,0)` equals the
target loss, `training_loss(0,1)` equals the context loss, and
`training_loss(1/2,1/2)` equals their unweighted average. -/
theorem training_loss_weighted_combination (p : Pattern) (I : Interp)
    (tl cl : Expr) (tw cw : ℚ)
    (ht : p.target_loss = some tl) (hc : p.context_loss = some cl) :
    (tw = 0 → p.training_loss tw cw = some (.smul cw cl)) ∧
    (tw ≠ 0 → cw = 0 → p.training_loss tw cw = some (.smul tw tl)) ∧
    (tw ≠ 0 → cw ≠ 0 →
      p.training_loss tw cw = some (.add (.smul tw tl) (.smul cw cl))) ∧
    (p.training_loss 1 0).map (Expr.eval I) = some (tl.eval I) ∧
    (p.training_loss 0 1).map (Expr.eval I) = some (cl.eval I) ∧
    (p.training_loss (1/2) (1/2)).map (Expr.eval I)
      = some ((tl.eval I + cl.eval I) / 2) := by
  refine ⟨?_, ?_, ?_, ?_, ?_, ?_⟩
  · intro h0
    simp [Pattern.training_loss, h0, hc]
  · intro h0 h1
    simp [Pattern.training_loss, h0, h1, ht]
  · intro h0 h1
    simp [Pattern.training_loss, h0, h1, ht, hc]
  · simp [Pattern.training_loss, ht, Expr.eval]
  · simp [Pattern.training_loss, hc, Expr.eval]
  · have h2 : ((1 : ℚ)/2) ≠ 0 := by norm_num
    simp only [Pattern.training_loss, if_neg h2, ht, hc]
    simp [Expr.eval]
    ring

/-- Witness for `training_loss_weighted_combination` at a concrete pattern
and interpretation. -/
def patternC1 : Pattern where
  cls := .base
  phi := ⟨"phi", ⟨[none, some 2], some (.var "x")⟩, [[0]]⟩
  psi := ⟨"psi", ⟨[none, some 2], some (.var "x")⟩, [[1]]⟩
  beta := none
  input_layer := ⟨[none, some 2], some (.var "x")⟩
  input_var := some (.var "x")
  target_var := some (.var "y")
  context_var := some (.var "z")
  target_loss := some (.var "tl")
  target_loss_fn := none
  context_loss := some (.var "cl")
  context_loss_fn := none
  name := none
  context_transform_var := none
  context_input_layer := none
  context_shape := .tuple []

/-- Concrete interpretation used by witnesses. -/
def interpW : Interp where
  var := fun _ => 3
  call := fun _ a b => a + b
  layer := fun _ x => x
  mean := fun x => x
  noneVal := 0

theorem training_loss_weighted_combination_witness :
    (patternC1.target_loss = some (.var "tl") ∧
     patternC1.context_loss = some (.var "cl")) ∧
    (((2 : ℚ) = 0 → patternC1.training_loss 2 3 = some (.smul 3 (.var "cl"))) ∧
     ((2 : ℚ) ≠ 0 → (3 : ℚ) = 0 →
        patternC1.training_loss 2 3 = some (.smul 2 (.var "tl"))) ∧
     ((2 : ℚ) ≠ 0 → (3 : ℚ) ≠ 0 →
        patternC1.training_loss 2 3
          = some (.add (.smul 2 (.var "tl")) (.smul 3 (.var "cl")))) ∧
     (patternC1.training_loss 1 0).map (Expr.eval interpW)
        = some ((Expr.var "tl").eval interpW) ∧
     (patternC1.training_loss 0 1).map (Expr.eval interpW)
        = some ((Expr.var "cl").eval interpW) ∧
     (patternC1.training_loss (1/2) (1/2)).map (Expr.eval interpW)
        = some (((Expr.var "tl").eval interpW
                  + (Expr.var "cl").eval interpW) / 2)) :=
  ⟨⟨rfl, rfl⟩,
   training_loss_weighted_combination patternC1 interpW
     (.var "tl") (.var "cl") 2 3 rfl rfl⟩

/-- Counterexample to C8 as stated: with `target_weight = 0` and
`context_weight = 0` both zero, the claim allows `context_loss` (the loss of
a zero weight) to be absent with the call still succeeding; the code takes
the `target_weight == 0` branch first and evaluates
`context_weight * self.context_loss`, which fails on the absent loss. -/
def patternC8 : Pattern :=
  { patternC1 with context_loss := none }

theorem training_loss_both_zero_counterexample :
    patternC8.context_loss = none ∧
    patternC8.target_loss = some (.var "tl") ∧
    patternC8.training_loss 0 0 = none := by
  refine ⟨rfl, rfl, ?_⟩
  simp [Pattern.training_loss, patternC8, patternC1]

/-- C8 amended: `training_loss tw cw` succeeds iff the losses demanded by the
branch actually taken are present — when `tw = 0` only `context_loss` is
required (so `target_loss` may be absent, even when `cw = 0` too); when
`tw ≠ 0` and `cw = 0` only `target_loss` is required; otherwise both are. -/
theorem training_loss_requires_losses (p : Pattern) (tw cw : ℚ) :
    (p.training_loss tw cw).isSome =
      (if tw = 0 then p.context_loss.isSome
       else if cw = 0 then p.target_loss.isSome
       else p.target_loss.isSome && p.context_loss.isSome) := by
  by_cases h0 : tw = 0
  · simp [Pattern.training_loss, h0]
  · by_cases h1 : cw = 0
    · simp [Pattern.training_loss, h0, h1]
    · cases ht : p.target_loss <;> cases hc : p.context_loss <;>
        simp [Pattern.training_loss, h0, h1, ht, hc]

/-- base.py lines 51-63: the constructor stores the loss argument in the
expression slot and `None` in the function slot, then — if the argument is a
callable (`isfunction`, modelled from the spec: `concarne.utils` is not among
the source files; per the spec a loss argument is deferred exactly when it
"is a callable rather than a ready expression") — moves it into the function
slot and clears the expression slot.  Result: (expression slot, function
slot). -/
def initLossSlots : Option LossArg → Option Expr × Option String
  | some (.fn f) => (none, some f)
  | some (.expr e) => (some e, none)
  | none => (none, none)

/-- Adding a tag to one parameter's tag set (`l.params[p].add(fun_name)`;
set semantics: no duplicates). -/
def addTag (t : ParamTags) (p : Nat) (fname : String) : ParamTags :=
  fun q => if q = p then (if fname ∈ t p then t p else fname :: t p) else t q

/-- base.py lines 72-78, the inner loop of `_tag_function_parameters` over
one layer's parameters: a parameter already tagged "phi" is skipped when
tagging under a role other than "phi"; otherwise the role is added. -/
def tagLayer (t : ParamTags) (l : List Nat) (fname : String) : ParamTags :=
  match l with
  | [] => t
  | p :: rest =>
      tagLayer (if fname ≠ "phi" ∧ "phi" ∈ t p then t else addTag t p fname)
        rest fname

/-- base.py lines 70-78, `Pattern._tag_function_parameters`: iterate over
`lasagne.layers.get_all_layers(fun)` (the `layers` field of the sub-network)
and tag every parameter of every layer. -/
def tagFunctionParameters (t : ParamTags) (layers : List (List Nat))
    (fname : String) : ParamTags :=
  match layers with
  | [] => t
  | l :: rest => tagFunctionParameters (tagLayer t l fname) rest fname

/-- base.py line 71 applied to `beta`, which may be `None`:
`lasagne.layers.get_all_layers(None)` skips the `None` entry and returns no
layers. -/
def allLayersOpt : Option SubNet → List (List Nat)
  | none => []
  | some b => b.layers

/-- base.py lines 65-67: the constructor's tagging loop, in order
`phi`, `psi`, `beta`. -/
def tagAllFunctions (t : ParamTags) (phi psi : SubNet) (beta : Option SubNet) :
    ParamTags :=
  tagFunctionParameters
    (tagFunctionParameters
      (tagFunctionParameters t phi.layers "phi") psi.layers "psi")
    (allLayersOpt beta) "beta"

/-- base.py lines 36-67, `Pattern.__init__`: stores the sub-networks, derives
`input_layer`/`input_var` from `phi`, splits each loss argument over its two
slots, and runs the tagging pass.  The fields below the slot assignments are
attributes that this constructor does not set (they belong to the pairwise
subclasses); they carry inert defaults.  Returns the object together with the
post-construction tagging state. -/
def Pattern.init (cls : PatternClass) (phi psi : SubNet) (beta : Option SubNet)
    (target_var context_var : Option Expr)
    (target_loss context_loss : Option LossArg)
    (name : Option String) (tags0 : ParamTags) : Pattern × ParamTags :=
  let tslots := initLossSlots target_loss
  let cslots := initLossSlots context_loss
  ({ cls := cls
     phi := phi
     psi := psi
     beta := beta
     input_layer := phi.input_layer
     input_var := phi.input_layer.input_var
     target_var := target_var
     context_var := context_var
     target_loss := tslots.1
     target_loss_fn := tslots.2
     context_loss := cslots.1
     context_loss_fn := cslots.2
     name := name
     context_transform_var := none
     context_input_layer := none
     context_shape := .tuple [] },
   tagAllFunctions tags0 phi psi beta)

/-- Sample sub-networks for concrete witnesses: `psi`'s layer graph includes
`phi`'s layer (parameters 1 and 2), as when `psi` is stacked on `phi`. -/
def phiW : SubNet :=
  ⟨"phi", ⟨[none, some 2], some (.var "x")⟩, [[1, 2]]⟩

def psiW : SubNet :=
  ⟨"psi", ⟨[none, some 2], some (.var "x")⟩, [[1, 2], [3]]⟩

/-- Initial tagging state for witnesses: no parameter carries any tag. -/
def tagsW : ParamTags := fun _ => []

/-- Counterexample to C4 as stated: when no `target_loss` argument is
supplied, both slots are null after construction, so "exactly one of the two
slots is non-null" fails. -/
theorem target_loss_slots_both_none_counterexample :
    ((Pattern.init .base phiW psiW none none none none none none
        tagsW).1.target_loss = none) ∧
    ((Pattern.init .base phiW psiW none none none none none none
        tagsW).1.target_loss_fn = none) :=
  ⟨rfl, rfl⟩

/-- C4 amended: after construction at most one of
`{target_loss, target_loss_fn}` is non-null; a callable argument is moved
into `target_loss_fn` with the expression slot cleared, an expression stays
in `target_loss`, and with no argument both slots are null. -/
theorem target_loss_slots_exclusive (cls : PatternClass) (phi psi : SubNet)
    (beta : Option SubNet) (tv cv : Option Expr)
    (tlArg clArg : Option LossArg) (nm : Option String) (tags0 : ParamTags) :
    ((Pattern.init cls phi psi beta tv cv tlArg clArg nm tags0).1.target_loss
        = (initLossSlots tlArg).1 ∧
     (Pattern.init cls phi psi beta tv cv tlArg clArg nm
        tags0).1.target_loss_fn = (initLossSlots tlArg).2) ∧
    ¬((initLossSlots tlArg).1.isSome ∧ (initLossSlots tlArg).2.isSome) ∧
    (match tlArg with
     | some (.fn f) => initLossSlots tlArg = (none, some f)
     | some (.expr e) => initLossSlots tlArg = (some e, none)
     | none => initLossSlots tlArg = (none, none)) := by
  refine ⟨⟨rfl, rfl⟩, ?_, ?_⟩
  · match tlArg with
    | some (.fn f) => simp [initLossSlots]
    | some (.expr e) => simp [initLossSlots]
    | none => simp [initLossSlots]
  · match tlArg with
    | some (.fn f) => rfl
    | some (.expr e) => rfl
    | none => rfl

theorem addTag_preserve {t : ParamTags} {q : Nat} {n : String} {pid : Nat}
    {x : String} (h : x ∈ t pid) : x ∈ addTag t q n pid := by
  simp only [addTag]
  by_cases hq : pid = q
  · subst hq
    by_cases hm : n ∈ t pid <;> simp [hm, h]
  · simp [hq, h]

theorem addTag_mem_elim {t : ParamTags} {q : Nat} {n : String} {pid : Nat}
    {x : String} (h : x ∈ addTag t q n pid) : x ∈ t pid ∨ x = n := by
  simp only [addTag] at h
  by_cases hq : pid = q
  · subst hq
    by_cases hm : n ∈ t pid
    · simp [hm] at h
      exact Or.inl h
    · simp [hm] at h
      rcases h with h | h
      · exact Or.inr h
      · exact Or.inl h
  · simp [hq] at h
    exact Or.inl h

theorem addTag_self {t : ParamTags} {q : Nat} {n : String} :
    n ∈ addTag t q n q := by
  simp only [addTag]
  by_cases hm : n ∈ t q <;> simp [hm]

theorem tagLayer_preserve {n : String} (l : List Nat) :
    ∀ (t : ParamTags) (pid : Nat) (x : String),
      x ∈ t pid → x ∈ tagLayer t l n pid := by
  induction l with
  | nil =>
      intro t pid x h
      simpa [tagLayer] using h
  | cons q rest ih =>
      intro t pid x h
      simp only [tagLayer]
      by_cases hc : n ≠ "phi" ∧ "phi" ∈ t q
      · rw [if_pos hc]
        exact ih t pid x h
      · rw [if_neg hc]
        exact ih _ pid x (addTag_preserve h)

theorem tagLayer_mem_elim {n : String} (l : List Nat) :
    ∀ (t : ParamTags) (pid : Nat) (x : String),
      x ∈ tagLayer t l n pid → x ∈ t pid ∨ x = n := by
  induction l with
  | nil =>
      intro t pid x h
      exact Or.inl (by simpa [tagLayer] using h)
  | cons q rest ih =>
      intro t pid x h
      simp only [tagLayer] at h
      by_cases hc : n ≠ "phi" ∧ "phi" ∈ t q
      · rw [if_pos hc] at h
        exact ih t pid x h
      · rw [if_neg hc] at h
        rcases ih _ pid x h with h' | h'
        · exact addTag_mem_elim h'
        · exact Or.inr h'

theorem tagLayer_phi_mem (l : List Nat) :
    ∀ (t : ParamTags) (pid : Nat), pid ∈ l →
      "phi" ∈ tagLayer t l "phi" pid := by
  induction l with
  | nil =>
      intro t pid h
      cases h
  | cons q rest ih =>
      intro t pid h
      simp only [tagLayer]
      have hcond : ¬("phi" ≠ "phi" ∧ "phi" ∈ t q) := by simp
      rw [if_neg hcond]
      rcases List.mem_cons.mp h with h' | h'
      · subst h'
        exact tagLayer_preserve rest _ pid "phi" addTag_self
      · exact ih _ pid h'

theorem tagLayer_phi_frozen {n : String} (hn : n ≠ "phi") (l : List Nat) :
    ∀ (t : ParamTags) (pid : Nat), "phi" ∈ t pid →
      tagLayer t l n pid = t pid := by
  induction l with
  | nil =>
      intro t pid h
      simp [tagLayer]
  | cons q rest ih =>
      intro t pid h
      simp only [tagLayer]
      by_cases hc : n ≠ "phi" ∧ "phi" ∈ t q
      · rw [if_pos hc]
        exact ih t pid h
      · rw [if_neg hc]
        have hq : pid ≠ q := by
          intro he
          exact hc ⟨hn, by rwa [← he]⟩
        have h1 : addTag t q n pid = t pid := by
          simp [addTag, hq]
        have h2 : "phi" ∈ addTag t q n pid := h1 ▸ h
        rw [ih _ pid h2, h1]

theorem tagFunctionParameters_preserve {n : String} (ls : List (List Nat)) :
    ∀ (t : ParamTags) (pid : Nat) (x : String),
      x ∈ t pid → x ∈ tagFunctionParameters t ls n pid := by
  induction ls with
  | nil =>
      intro t pid x h
      simpa [tagFunctionParameters] using h
  | cons l rest ih =>
      intro t pid x h
      simp only [tagFunctionParameters]
      exact ih _ pid x (tagLayer_preserve l t pid x h)

theorem tagFunctionParameters_mem_elim {n : String} (ls : List (List Nat)) :
    ∀ (t : ParamTags) (pid : Nat) (x : String),
      x ∈ tagFunctionParameters t ls n pid → x ∈ t pid ∨ x = n := by
  induction ls with
  | nil =>
      intro t pid x h
      exact Or.inl (by simpa [tagFunctionParameters] using h)
  | cons l rest ih =>
      intro t pid x h
      simp only [tagFunctionParameters] at h
      rcases ih _ pid x h with h' | h'
      · exact tagLayer_mem_elim l t pid x h'
      · exact Or.inr h'

theorem tagFunctionParameters_phi_mem (ls : List (List Nat)) :
    ∀ (t : ParamTags) (l : List Nat) (pid : Nat), l ∈ ls → pid ∈ l →
      "phi" ∈ tagFunctionParameters t ls "phi" pid := by
  induction ls with
  | nil =>
      intro t l pid hl
      cases hl
  | cons l0 rest ih =>
      intro t l pid hl hp
      simp only [tagFunctionParameters]
      rcases List.mem_cons.mp hl with h' | h'
      · subst h'
        exact tagFunctionParameters_preserve rest _ pid "phi"
          (tagLayer_phi_mem l t pid hp)
      · exact ih _ l pid h' hp

theorem tagFunctionParameters_phi_frozen {n : String} (hn : n ≠ "phi")
    (ls : List (List Nat)) :
    ∀ (t : ParamTags) (pid : Nat), "phi" ∈ t pid →
      tagFunctionParameters t ls n pid = t pid := by
  induction ls with
  | nil =>
      intro t pid h
      simp [tagFunctionParameters]
  | cons l rest ih =>
      intro t pid h
      simp only [tagFunctionParameters]
      have h1 : tagLayer t l n pid = t pid := tagLayer_phi_frozen hn l t pid h
      have h2 : "phi" ∈ tagLayer t l n pid := h1 ▸ h
      rw [ih _ pid h2, h1]

/-- C3: after construction, every parameter of a layer of `phi`'s graph
carries the tag "phi" and carries neither "psi" nor "beta" (assuming the
pre-construction state does not already carry those role tags), even when
the layer is shared with `psi`'s or `beta`'s graph: tagging under a role
other than phi skips any parameter already tagged "phi". -/
theorem phi_parameters_tagged_phi_only (cls : PatternClass)
    (phi psi : SubNet) (beta : Option SubNet) (tv cv : Option Expr)
    (tlArg clArg : Option LossArg) (nm : Option String) (tags0 : ParamTags)
    (l : List Nat) (pid : Nat) (hl : l ∈ phi.layers) (hp : pid ∈ l)
    (hpsi0 : "psi" ∉ tags0 pid) (hbeta0 : "beta" ∉ tags0 pid) :
    "phi" ∈ (Pattern.init cls phi psi beta tv cv tlArg clArg nm tags0).2 pid ∧
    "psi" ∉ (Pattern.init cls phi psi beta tv cv tlArg clArg nm tags0).2 pid ∧
    "beta" ∉ (Pattern.init cls phi psi beta tv cv tlArg clArg nm tags0).2 pid
    := by
  have hfinal : (Pattern.init cls phi psi beta tv cv tlArg clArg nm tags0).2
      = tagAllFunctions tags0 phi psi beta := rfl
  rw [hfinal]
  unfold tagAllFunctions
  set t1 := tagFunctionParameters tags0 phi.layers "phi" with ht1
  have hphi1 : "phi" ∈ t1 pid :=
    tagFunctionParameters_phi_mem phi.layers tags0 l pid hl hp
  have hpsi1 : "psi" ∉ t1 pid := by
    intro hmem
    rcases tagFunctionParameters_mem_elim phi.layers tags0 pid "psi" hmem
      with h | h
    · exact hpsi0 h
    · exact absurd h (by decide)
  have hbeta1 : "beta" ∉ t1 pid := by
    intro hmem
    rcases tagFunctionParameters_mem_elim phi.layers tags0 pid "beta" hmem
      with h | h
    · exact hbeta0 h
    · exact absurd h (by decide)
  have e2 : tagFunctionParameters t1 psi.layers "psi" pid = t1 pid :=
    tagFunctionParameters_phi_frozen (by decide) psi.layers t1 pid hphi1
  have hphi2 : "phi" ∈ tagFunctionParameters t1 psi.layers "psi" pid := by
    rw [e2]
    exact hphi1
  have e3 : tagFunctionParameters (tagFunctionParameters t1 psi.layers "psi")
      (allLayersOpt beta) "beta" pid = t1 pid := by
    rw [tagFunctionParameters_phi_frozen (by decide) _ _ pid hphi2, e2]
  rw [e3]
  exact ⟨hphi1, hpsi1, hbeta1⟩

theorem phi_parameters_tagged_phi_only_witness :
    ([1, 2] ∈ phiW.layers ∧ 1 ∈ ([1, 2] : List Nat) ∧
     "psi" ∉ tagsW 1 ∧ "beta" ∉ tagsW 1) ∧
    ("phi" ∈ (Pattern.init .base phiW psiW none none none none none none
        tagsW).2 1 ∧
     "psi" ∉ (Pattern.init .base phiW psiW none none none none none none
        tagsW).2 1 ∧
     "beta" ∉ (Pattern.init .base phiW psiW none none none none none none
        tagsW).2 1) :=
  ⟨⟨by decide, by decide, by decide, by decide⟩,
   phi_parameters_tagged_phi_only .base phiW psiW none none none none none
     none tagsW [1, 2] 1 (by decide) (by decide) (by decide) (by decide)⟩

/-- Tag filtering of the library's `get_params`, per the collaborator
contract: "a parameter matches if every requested tag name is
present/absent as specified". -/
def matchesTags (ptags : List String) (query : List (String × Bool)) : Bool :=
  query.all (fun tb => decide (tb.1 ∈ ptags) == tb.2)

/-- The sub-network capability "list trainable parameters", filtered by
tags (collaborator contract, spec section 6): the parameters of the
sub-network's layers in graph order, each matched against the query under
the current tagging state. -/
def SubNet.get_params (net : SubNet) (t : ParamTags)
    (query : List (String × Bool)) : List Nat :=
  net.layers.flatten.filter (fun p => matchesTags (t p) query)

theorem subnet_get_params_nil (net : SubNet) (t : ParamTags) :
    net.get_params t [] = net.layers.flatten := by
  unfold SubNet.get_params
  have h : List.filter (fun p => matchesTags (t p) []) net.layers.flatten
      = List.filter (fun _ => true) net.layers.flatten :=
    List.filter_congr (fun x _ => rfl)
  rw [h, List.filter_true]

theorem subnet_get_params_true (net : SubNet) (t : ParamTags) (tag : String) :
    net.get_params t [(tag, true)]
      = net.layers.flatten.filter (fun q => decide (tag ∈ t q)) := by
  unfold SubNet.get_params
  apply List.filter_congr
  intro x _
  simp [matchesTags]

theorem subnet_get_params_false (net : SubNet) (t : ParamTags) (tag : String) :
    net.get_params t [(tag, false)]
      = net.layers.flatten.filter (fun q => !decide (tag ∈ t q)) := by
  unfold SubNet.get_params
  apply List.filter_congr
  intro x _
  cases hdec : decide (tag ∈ t x) <;> simp [matchesTags, hdec]

/-- base.py lines 160-194, `Pattern.get_params`: psi's parameters, then
beta's (if present), then phi's. -/
def Pattern.get_params (p : Pattern) (t : ParamTags)
    (query : List (String × Bool)) : List Nat :=
  let params := p.psi.get_params t query
  let params := params ++ (match p.beta with
    | some b => b.get_params t query
    | none => [])
  params ++ p.phi.get_params t query

/-- C2: `get_params` returns psi's, then beta's (if present), then phi's
parameters; with no query it returns all of them; querying `tag := true`
keeps exactly the parameters whose tag set contains `tag`, and
`tag := false` exactly those whose tag set does not. -/
theorem get_params_order_and_filter (p : Pattern) (t : ParamTags)
    (tag : String) (query : List (String × Bool)) :
    (p.get_params t query
       = p.psi.get_params t query
         ++ (match p.beta with
             | some b => b.get_params t query
             | none => [])
         ++ p.phi.get_params t query) ∧
    (p.get_params t []
       = p.psi.layers.flatten
         ++ (match p.beta with
             | some b => b.layers.flatten
             | none => [])
         ++ p.phi.layers.flatten) ∧
    (p.get_params t [(tag, true)]
       = (p.get_params t []).filter (fun q => decide (tag ∈ t q))) ∧
    (p.get_params t [(tag, false)]
       = (p.get_params t []).filter (fun q => !decide (tag ∈ t q))) := by
  refine ⟨rfl, ?_, ?_, ?_⟩
  · cases hb : p.beta <;>
      simp [Pattern.get_params, hb, subnet_get_params_nil]
  · cases hb : p.beta <;>
      simp [Pattern.get_params, hb, subnet_get_params_nil,
        subnet_get_params_true, List.filter_append]
  · cases hb : p.beta <;>
      simp [Pattern.get_params, hb, subnet_get_params_nil,
        subnet_get_params_false, List.filter_append]

/-- base.py lines 115 and 126: the body is `raise NotImplemented()`; the
`NotImplemented` singleton is not callable, so evaluating the raise argument
itself raises a `TypeError`. -/
def raiseNotImplementedCall : Except PyError String :=
  .error (.typeError "NotImplementedType object is not callable")

/-- base.py lines 107-115 (base: abstract) and pairwise.py lines 40-42
(pairwise classes: categorical cross-entropy): the virtual
`default_target_objective`, returning the name of the objective function. -/
def Pattern.default_target_objective (p : Pattern) : Except PyError String :=
  match p.cls with
  | .base => raiseNotImplementedCall
  | .pairwiseTransformation => .ok "categorical_crossentropy"
  | .pairwisePredictTransformation => .ok "categorical_crossentropy"

/-- base.py lines 118-126 (base: abstract) and pairwise.py lines 44-46
(pairwise classes: squared error). -/
def Pattern.default_context_objective (p : Pattern) : Except PyError String :=
  match p.cls with
  | .base => raiseNotImplementedCall
  | .pairwiseTransformation => .ok "squared_error"
  | .pairwisePredictTransformation => .ok "squared_error"

/-- base.py lines 231-233, `get_psi_output_for`: psi's forward pass composed
onto phi's. -/
def Pattern.get_psi_output_for (p : Pattern) (input : Expr) : Expr :=
  .layerOut p.psi.name (.layerOut p.phi.name input)

/-- The virtual `get_beta_output_for`: base.py line 236 raises
`NotImplementedError`; pairwise.py lines 75-76 keep it abstract on
`PairwiseTransformationPattern`; pairwise.py lines 125-132 implement it on
`PairwisePredictTransformationPattern` as the elementwise difference of
phi's outputs, forwarded through `beta` when one is present. -/
def Pattern.get_beta_output_for (p : Pattern) (input_i input_j : Expr) :
    Except PyError Expr :=
  match p.cls with
  | .base => .error .notImplementedError
  | .pairwiseTransformation => .error .notImplementedError
  | .pairwisePredictTransformation =>
      let phi_i_output := Expr.layerOut p.phi.name input_i
      let phi_j_output := Expr.layerOut p.phi.name input_j
      let diff := Expr.sub phi_i_output phi_j_output
      match p.beta with
      | some b => .ok (.layerOut b.name diff)
      | none => .ok diff

/-- base.py lines 145-149: the loss function used for the target objective —
the explicitly supplied one if any, else the (virtual) default. -/
def Pattern.targetLossFnChoice (p : Pattern) : Except PyError String :=
  match p.target_loss_fn with
  | none => p.default_target_objective
  | some f => .ok f

/-- pairwise.py lines 63-67: same choice for the context objective. -/
def Pattern.contextLossFnChoice (p : Pattern) : Except PyError String :=
  match p.context_loss_fn with
  | none => p.default_context_objective
  | some f => .ok f

/-- base.py lines 128-152, `_create_target_objective` (all call sites pass
no arguments, so `output` and `target` take their defaults): a no-op when
`target_loss` is already set; otherwise asserts that `input_var` and
`target_var` are present and stores `fn(output, target).mean()`. -/
def Pattern.create_target_objective (p : Pattern) : Except PyError Pattern :=
  let output := p.get_psi_output_for (optExpr p.input_var)
  let target := optExpr p.target_var
  match p.target_loss with
  | some _ => .ok p
  | none =>
      if p.input_var = none then .error .assertionError
      else if p.target_var = none then .error .assertionError
      else
        match p.targetLossFnChoice with
        | .error e => .error e
        | .ok fn =>
            .ok { p with target_loss := some (.mean (.call fn output target)) }

/-- pairwise.py lines 58-72, `_create_context_objective`: a no-op when
`context_loss` is already set; otherwise asserts `input_var` and
`context_var`, then stores
`fn(get_beta_output_for(input_var, context_var), context_transform_var).mean()`. -/
def Pattern.create_context_objective (p : Pattern) : Except PyError Pattern :=
  match p.context_loss with
  | some _ => .ok p
  | none =>
      if p.input_var = none then .error .assertionError
      else if p.context_var = none then .error .assertionError
      else
        match p.contextLossFnChoice with
        | .error e => .error e
        | .ok fn =>
            match p.get_beta_output_for (optExpr p.input_var)
                (optExpr p.context_var) with
            | .error e => .error e
            | .ok betaOut =>
                let built :=
                  Expr.mean (.call fn betaOut (optExpr p.context_transform_var))
                .ok { p with context_loss := some built }

/-- C5: with `input_var` and `target_var` present and a usable loss function
(the supplied one if given, else the pattern's default target objective),
the first call to the target-objective builder turns a null `target_loss`
into `mean(fn(psi_output, target_var))`, and a second call on the result is
a no-op. -/
theorem create_target_objective_idempotent (p : Pattern) (iv tv : Expr)
    (f : String) (hin : p.input_var = some iv) (htv : p.target_var = some tv)
    (h0 : p.target_loss = none) (hf : p.targetLossFnChoice = .ok f) :
    p.create_target_objective
      = .ok { p with
          target_loss := some (.mean (.call f (p.get_psi_output_for iv) tv)) } ∧
    Pattern.create_target_objective
        { p with
          target_loss := some (.mean (.call f (p.get_psi_output_for iv) tv)) }
      = .ok { p with
          target_loss := some (.mean (.call f (p.get_psi_output_for iv) tv)) } := by
  constructor
  · simp [Pattern.create_target_objective, h0, hin, htv, hf, optExpr]
  · rfl

/-- Sample pattern for the C5 witness: a pairwise-class pattern before its
losses are built. -/
def patternC5 : Pattern :=
  { patternC1 with
      cls := .pairwiseTransformation
      target_loss := none
      context_loss := none }

theorem create_target_objective_idempotent_witness :
    (patternC5.input_var = some (.var "x") ∧
     patternC5.target_var = some (.var "y") ∧
     patternC5.target_loss = none ∧
     patternC5.targetLossFnChoice = .ok "categorical_crossentropy") ∧
    (patternC5.create_target_objective
       = .ok { patternC5 with
           target_loss := some (.mean (.call "categorical_crossentropy" (patternC5.get_psi_output_for (.var "x")) (.var "y"))) } ∧
     Pattern.create_target_objective
         { patternC5 with
           target_loss := some (.mean (.call "categorical_crossentropy" (patternC5.get_psi_output_for (.var "x")) (.var "y"))) }
       = .ok { patternC5 with
           target_loss := some (.mean (.call "categorical_crossentropy" (patternC5.get_psi_output_for (.var "x")) (.var "y"))) }) :=
  ⟨⟨rfl, rfl, rfl, rfl⟩,
   create_target_objective_idempotent patternC5 (.var "x") (.var "y")
     "categorical_crossentropy" rfl rfl rfl rfl⟩

/-- C6: on a pairwise-predict pattern, `get_beta_output_for(x_i, x_j)` is
exactly `phi(x_i) - phi(x_j)` when no beta sub-network is present, and is
beta applied to that difference when one is. -/
theorem get_beta_output_for_difference (p : Pattern) (xi xj : Expr)
    (h : p.cls = .pairwisePredictTransformation) :
    p.get_beta_output_for xi xj
      = .ok (match p.beta with
        | none => .sub (.layerOut p.phi.name xi) (.layerOut p.phi.name xj)
        | some b =>
            .layerOut b.name
              (.sub (.layerOut p.phi.name xi) (.layerOut p.phi.name xj))) := by
  cases hb : p.beta <;> simp [Pattern.get_beta_output_for, h, hb]

/-- Sample pattern for the C6 witness: pairwise-predict class, no beta. -/
def patternC6 : Pattern :=
  { patternC1 with cls := .pairwisePredictTransformation }

theorem get_beta_output_for_difference_witness :
    patternC6.cls = .pairwisePredictTransformation ∧
    patternC6.get_beta_output_for (.var "xi") (.var "xj")
      = .ok (match patternC6.beta with
        | none =>
            Expr.sub (.layerOut patternC6.phi.name (.var "xi"))
              (.layerOut patternC6.phi.name (.var "xj"))
        | some b =>
            .layerOut b.name
              (.sub (.layerOut patternC6.phi.name (.var "xi"))
                (.layerOut patternC6.phi.name (.var "xj")))) :=
  ⟨rfl, get_beta_output_for_difference patternC6 (.var "xi") (.var "xj") rfl⟩

/-- pairwise.py lines 48-56, `PairwiseTransformationPattern.__init__` (also
run unchanged by `PairwisePredictTransformationPattern.__init__`,
pairwise.py lines 110-111): set `context_input_layer = None`, run the base
constructor, store `context_transform_var`, assert that it is present, then
eagerly build the target objective and the context objective.  A raised
error carries the object state at the moment of the raise. -/
def PairwiseTransformationPattern.init (cls : PatternClass)
    (phi psi : SubNet) (beta : Option SubNet)
    (target_var context_var context_transform_var : Option Expr)
    (target_loss context_loss : Option LossArg) (name : Option String)
    (tags0 : ParamTags) : Except (PyError × Pattern) (Pattern × ParamTags) :=
  let b := Pattern.init cls phi psi beta target_var context_var target_loss
    context_loss name tags0
  let p1 : Pattern :=
    { b.1 with context_transform_var := context_transform_var }
  if context_transform_var = none then .error (.assertionError, p1)
  else
    match p1.create_target_objective with
    | .error e => .error (e, p1)
    | .ok p2 =>
        match p2.create_context_objective with
        | .error e => .error (e, p2)
        | .ok p3 => .ok (p3, b.2)

/-- C7: constructing a pairwise pattern without `context_transform_var`
fails with an assertion error, and the state at the failure still has the
loss slots exactly as the base constructor left them — neither the target
nor the context loss has been built. -/
theorem pairwise_init_requires_transform_var (cls : PatternClass)
    (phi psi : SubNet) (beta : Option SubNet) (tv cv : Option Expr)
    (tlArg clArg : Option LossArg) (nm : Option String) (tags0 : ParamTags) :
    PairwiseTransformationPattern.init cls phi psi beta tv cv none tlArg
        clArg nm tags0
      = .error (.assertionError,
          { (Pattern.init cls phi psi beta tv cv tlArg clArg nm tags0).1 with
              context_transform_var := none }) ∧
    ({ (Pattern.init cls phi psi beta tv cv tlArg clArg nm tags0).1 with
        context_transform_var := none } : Pattern).target_loss
      = (initLossSlots tlArg).1 ∧
    ({ (Pattern.init cls phi psi beta tv cv tlArg clArg nm tags0).1 with
        context_transform_var := none } : Pattern).context_loss
      = (initLossSlots clArg).1 :=
  ⟨rfl, rfl, rfl⟩

/-- pairwise.py lines 118-120: the shape given to the beta input layer — a
Python `int` dimension `d` wraps as `(None, d)`, anything else is used as
the shape directly. -/
def shapeDim : ShapeSpec → List (Option Nat)
  | .scalar d => [none, some d]
  | .tuple s => s

/-- pairwise.py lines 113-123, `default_beta_input` (lazy cached property):
on first access build an `InputLayer` over the context dimensionality bound
to `context_var` and store it in `context_input_layer`; afterwards return
the cached layer.  Returns the layer together with the updated object. -/
def Pattern.default_beta_input (p : Pattern) : InputLayer × Pattern :=
  match p.context_input_layer with
  | some l => (l, p)
  | none =>
      let layer : InputLayer :=
        { shape := shapeDim p.context_shape, input_var := p.context_var }
      (layer, { p with context_input_layer := some layer })

/-- C9: the first access to `default_beta_input` builds the input-layer
placeholder shaped by the context dimensionality and bound to
`context_var`, caches it in `context_input_layer`, and a second access
returns the identical cached object with the state unchanged. -/
theorem default_beta_input_cached (p : Pattern)
    (_hcls : p.cls = .pairwisePredictTransformation)
    (h0 : p.context_input_layer = none) :
    (p.default_beta_input).1
      = { shape := shapeDim p.context_shape, input_var := p.context_var } ∧
    (p.default_beta_input).2
      = { p with context_input_layer := some (p.default_beta_input).1 } ∧
    ((p.default_beta_input).2).default_beta_input
      = ((p.default_beta_input).1, (p.default_beta_input).2) := by
  refine ⟨?_, ?_, ?_⟩ <;> simp [Pattern.default_beta_input, h0]

/-- Sample pattern for the C9 witness: pairwise-predict class with a scalar
context dimension and no cached input layer yet. -/
def patternC9 : Pattern :=
  { patternC1 with
      cls := .pairwisePredictTransformation
      context_shape := .scalar 5 }

theorem default_beta_input_cached_witness :
    (patternC9.cls = .pairwisePredictTransformation ∧
     patternC9.context_input_layer = none) ∧
    ((patternC9.default_beta_input).1
       = { shape := shapeDim patternC9.context_shape,
           input_var := patternC9.context_var } ∧
     (patternC9.default_beta_input).2
       = { patternC9 with
           context_input_layer := some (patternC9.default_beta_input).1 } ∧
     ((patternC9.default_beta_input).2).default_beta_input
       = ((patternC9.default_beta_input).1,
          (patternC9.default_beta_input).2)) :=
  ⟨⟨rfl, rfl⟩, default_beta_input_cached patternC9 rfl rfl⟩

/-- C10 (code behavior at the failing input): on a base `Pattern`, the two
abstract default objectives execute `raise NotImplemented()`, which raises
`TypeError` (the `NotImplemented` singleton is not callable) rather than an
error signaling that the operation must be overridden; `get_beta_output_for`
does raise `NotImplementedError`. -/
theorem base_abstract_operations_raise :
    patternC1.default_target_objective
      = .error (.typeError "NotImplementedType object is not callable") ∧
    patternC1.default_context_objective
      = .error (.typeError "NotImplementedType object is not callable") ∧
    patternC1.get_beta_output_for (.var "xi") (.var "xj")
      = .error .notImplementedError :=
  ⟨rfl, rfl, rfl⟩

end Concarne
